import Mathlib

/-!
Verification of the motivation-level-checker scoring logic
(`src/models/mood_analyzer.py`) in a shallow embedding.

Python floats are modelled as rationals (`ℚ`); the decimal literals of the
source are exact rationals here.  The external collaborators (TextBlob
sentiment, the HuggingFace pipeline, the embedding model) are modelled as
oracle parameters: `analyze` receives them as functions returning
`Except String _`, where `.error msg` models a raised exception with message
`msg`.  Python dictionaries whose key set varies between code paths are
modelled as a structure with `Option` fields, `none` meaning the key is
absent.
-/

/-- The `MoodAnalyzer.MOOD_CATEGORIES` table: the ordered mood buckets
(Python dicts preserve insertion order, so the embedding is an ordered
association list `name ↦ (lower, upper)`). -/
def MOOD_CATEGORIES : List (String × ℚ × ℚ) :=
  [("very_negative", (-1, -3/5)),
   ("negative", (-3/5, -1/5)),
   ("neutral", (-1/5, 1/5)),
   ("positive", (1/5, 3/5)),
   ("very_positive", (3/5, 1))]

/-- The scan loop of `MoodAnalyzer.get_mood_category`: return the first
category whose half-open interval `[lower, upper)` contains the polarity,
else fall through. -/
def findCat : List (String × ℚ × ℚ) → ℚ → String
  | [], _ => "very_positive"
  | (category, lower, upper) :: rest, polarity =>
      if lower ≤ polarity ∧ polarity < upper then category
      else findCat rest polarity

/-- Embedding of `MoodAnalyzer.get_mood_category`: scan `MOOD_CATEGORIES` in declaration
order; the fall-through value is the literal `"very_positive"` of the
Python `return` after the loop. -/
def get_mood_category (polarity : ℚ) : String :=
  findCat MOOD_CATEGORIES polarity

/-- The mood classification as the specification words it: the label of the
first bucket, in declaration order, whose half-open interval contains the
polarity (via `List.find?`), with `"very_positive"` when no bucket matches. -/
def classify_mood_spec (p : ℚ) : String :=
  ((MOOD_CATEGORIES.find? fun c => decide (c.2.1 ≤ p ∧ p < c.2.2)).map
    Prod.fst).getD "very_positive"

/-- Position of a mood label in the order
very_negative < negative < neutral < positive < very_positive. -/
def mood_rank (mood : String) : ℕ :=
  if mood = "very_negative" then 0
  else if mood = "negative" then 1
  else if mood = "neutral" then 2
  else if mood = "positive" then 3
  else 4

/-- Embedding of `MoodAnalyzer.calculate_motivation_score`.  The HuggingFace pipeline's
first result is `(tf_score, tf_label)`; `get_embedding` (the transformer
embedding) and `similarity` (cosine similarity of two embeddings) act on an
abstract embedding type `α`, since both are computed by the external model.
`np.clip(x, 0, 100)` is `min (max x 0) 100`. -/
def calculate_motivation_score {α : Type} (similarity : α → α → ℚ)
    (get_embedding : String → α) (tf_score : ℚ) (tf_label : String)
    (polarity : ℚ) : ℚ :=
  let label_embedding := get_embedding tf_label
  let highest_score :=
    MOOD_CATEGORIES.foldl
      (fun acc c =>
        let sim := similarity label_embedding (get_embedding c.1)
        if sim > acc then sim else acc)
      tf_score
  let combined_score := 1/2 * polarity + (1/2 * highest_score * tf_score)
  let motivation_score := (combined_score + 1) * 50
  min (max motivation_score 0) 100

/-- The motivation-category thresholds inlined in `MoodAnalyzer.analyze`
(lines 151–156): `≥ 70 → "high"`, `≥ 40 → "moderate"`, else `"low"`. -/
def categorize_motivation (motivation_level : ℚ) : String :=
  if motivation_level ≥ 70 then "high"
  else if motivation_level ≥ 40 then "moderate"
  else "low"

/-- Modelled from the spec: the keyword-weighted motivation scoring policy.
The module `motivation_checker.models.mood_analyzer`, imported by
`src/motivation_checker/api/main.py`, is not under `src/`; the spec says it
counts matches of the lowercased text against two fixed keyword sets and
computes `keyword_score = (high_count − low_count)/(high_count + low_count)`
when the denominator is nonzero else `0`, `combined = 0.6·polarity +
0.4·keyword_score`, and `(combined + 1)·50` clamped to `[0, 100]`.  The
keyword sets themselves are not given, so the two match counts are taken as
arguments. -/
def keyword_motivation_score (high_count low_count : ℕ) (polarity : ℚ) : ℚ :=
  let keyword_score : ℚ :=
    if high_count + low_count ≠ 0 then
      ((high_count : ℚ) - (low_count : ℚ)) /
        ((high_count : ℚ) + (low_count : ℚ))
    else 0
  let combined := 3/5 * polarity + 2/5 * keyword_score
  min (max ((combined + 1) * 50) 0) 100

/-- Python's `round(x, ndigits)` (round half to even) on rationals. -/
def pyRound (ndigits : ℕ) (q : ℚ) : ℚ :=
  let scaled := q * (10 : ℚ) ^ ndigits
  let f : ℤ := ⌊scaled⌋
  let rounded : ℤ :=
    if scaled - (f : ℚ) < 1/2 then f
    else if scaled - (f : ℚ) > 1/2 then f + 1
    else if f % 2 = 0 then f else f + 1
  (rounded : ℚ) / (10 : ℚ) ^ ndigits

/-- Python's `len(text.split())`: the number of maximal runs of
non-whitespace characters.  The fold state is (inside a word?, words seen). -/
def pyWordCount (text : String) : ℕ :=
  (text.data.foldl
    (fun st c =>
      if c.isWhitespace then (false, st.2)
      else if st.1 then st else (true, st.2 + 1))
    ((false : Bool), (0 : ℕ))).2

/-- Python's `not text.strip()`: stripping leading and trailing whitespace
leaves the empty string iff every character is whitespace. -/
def strip_empty (text : String) : Bool :=
  text.data.all fun c => c.isWhitespace

/-- The dictionary returned by `MoodAnalyzer.analyze`.  The two sentinel
dictionaries carry fewer keys than the success dictionary, so the keys that
are present only on success are `Option`-typed, `none` meaning absent. -/
structure AnalyzeResult where
  error : Option String
  mood : String
  motivation_level : ℚ
  motivation_category : Option String
  polarity : ℚ
  subjectivity : ℚ
  text_length : Option ℕ
  word_count : Option ℕ
deriving Repr, DecidableEq

/-- The sentinel dictionary built by both the empty-input branch and the
`except` branch of `MoodAnalyzer.analyze`: keys `error`, `mood`,
`motivation_level` and `sentiment` only. -/
def sentinel (msg : String) : AnalyzeResult :=
  { error := some msg
    mood := "neutral"
    motivation_level := 50
    motivation_category := none
    polarity := 0
    subjectivity := 0
    text_length := none
    word_count := none }

/-- Embedding of `MoodAnalyzer.analyze`.  Here `analyze_sentiment` (TextBlob) and
`score_of` (the body of `calculate_motivation_score`, whose pipeline and
embedding calls may raise) are oracles; `.error msg` models an exception
with message `msg`.  Python's `not text or not text.strip()` is
`text = "" ∨ strip_empty text = true`. -/
def analyze (analyze_sentiment : String → Except String (ℚ × ℚ))
    (score_of : String → ℚ → Except String ℚ) (text : String) :
    AnalyzeResult :=
  if text = "" ∨ strip_empty text = true then
    sentinel "Empty text provided"
  else
    match analyze_sentiment text with
    | .error e => sentinel e
    | .ok (polarity, subjectivity) =>
      let mood := get_mood_category polarity
      match score_of text polarity with
      | .error e => sentinel e
      | .ok motivation_level =>
        { error := none
          mood := mood
          motivation_level := pyRound 2 motivation_level
          motivation_category := some (categorize_motivation motivation_level)
          polarity := pyRound 3 polarity
          subjectivity := pyRound 3 subjectivity
          text_length := some text.length
          word_count := some (pyWordCount text) }

/-! ## Helper lemmas -/

/-- Closed-form case split of `get_mood_category`, by unfolding the scan. -/
lemma get_mood_category_eq (p : ℚ) :
    get_mood_category p =
      if -1 ≤ p ∧ p < -3/5 then "very_negative"
      else if -3/5 ≤ p ∧ p < -1/5 then "negative"
      else if -1/5 ≤ p ∧ p < 1/5 then "neutral"
      else if 1/5 ≤ p ∧ p < 3/5 then "positive"
      else "very_positive" := by
  simp only [get_mood_category, MOOD_CATEGORIES, findCat]
  split_ifs <;> rfl

/-- The update step of the `highest_score` loop is a binary maximum. -/
lemma ite_gt_max (acc sim : ℚ) : (if sim > acc then sim else acc) = max acc sim := by
  rw [max_def]
  split_ifs <;> first | rfl | linarith

lemma classify_mood_spec_eq (p : ℚ) :
    get_mood_category p = classify_mood_spec p := by
  rw [get_mood_category_eq]
  simp only [classify_mood_spec, MOOD_CATEGORIES, List.find?_cons]
  have q5 : ((5:ℚ)⁻¹ : ℚ) = 1/5 := by norm_num
  split_ifs with h1 h2 h3 h4
  · simp [h1.1, h1.2]
  · have e1 : ¬ p < -3/5 := not_lt.2 h2.1
    simp [h2.1, h2.2, e1]
  · have e1 : ¬ p < -3/5 := not_lt.2 (by linarith [h3.1] : (-3/5 : ℚ) ≤ p)
    have e2 : ¬ p < -1/5 := not_lt.2 h3.1
    have f3 : p < (5:ℚ)⁻¹ := by rw [q5]; exact h3.2
    simp [h3.1, h3.2, e1, e2, f3]
  · have e1 : ¬ p < -3/5 := not_lt.2 (by linarith [h4.1] : (-3/5 : ℚ) ≤ p)
    have e2 : ¬ p < -1/5 := not_lt.2 (by linarith [h4.1] : (-1/5 : ℚ) ≤ p)
    have e3 : ¬ p < 1/5 := not_lt.2 h4.1
    have f3 : ¬ p < (5:ℚ)⁻¹ := by rw [q5]; exact e3
    have f4 : ((5:ℚ)⁻¹ : ℚ) ≤ p := by rw [q5]; exact h4.1
    simp [h4.1, h4.2, e1, e2, e3, f3, f4]
  · by_cases h5 : (3/5 : ℚ) ≤ p ∧ p < 1
    · have e1 : ¬ p < -3/5 := not_lt.2 (by linarith [h5.1] : (-3/5 : ℚ) ≤ p)
      have e2 : ¬ p < -1/5 := not_lt.2 (by linarith [h5.1] : (-1/5 : ℚ) ≤ p)
      have e3 : ¬ p < 1/5 := not_lt.2 (by linarith [h5.1] : (1/5 : ℚ) ≤ p)
      have e4 : ¬ p < 3/5 := not_lt.2 h5.1
      have f3 : ¬ p < (5:ℚ)⁻¹ := by rw [q5]; exact e3
      simp [h5.1, h5.2, e1, e2, e3, e4, f3]
    · rcases lt_or_le p (-1) with hlo | hhi
      · have e0 : ¬ (-1 : ℚ) ≤ p := not_le.2 hlo
        have e1 : ¬ (-3/5 : ℚ) ≤ p := not_le.2 (by linarith)
        have e2 : ¬ (-1/5 : ℚ) ≤ p := not_le.2 (by linarith)
        have e3 : ¬ (1/5 : ℚ) ≤ p := not_le.2 (by linarith)
        have e4 : ¬ (3/5 : ℚ) ≤ p := not_le.2 (by linarith)
        have f3 : ¬ ((5:ℚ)⁻¹ : ℚ) ≤ p := by rw [q5]; exact e3
        simp [e0, e1, e2, e3, e4, f3]
      · -- here every bucket fails and p ≥ -1; so p ≥ 1 by chaining the negations
        have g1 : (-3/5 : ℚ) ≤ p := by
          by_contra hc
          exact h1 ⟨hhi, not_le.1 hc⟩
        have g2 : (-1/5 : ℚ) ≤ p := by
          by_contra hc
          exact h2 ⟨g1, not_le.1 hc⟩
        have g3 : (1/5 : ℚ) ≤ p := by
          by_contra hc
          exact h3 ⟨g2, not_le.1 hc⟩
        have g4 : (3/5 : ℚ) ≤ p := by
          by_contra hc
          exact h4 ⟨g3, not_le.1 hc⟩
        have g5 : ¬ p < 1 := fun hc => h5 ⟨g4, hc⟩
        have e1 : ¬ p < -3/5 := not_lt.2 (by linarith)
        have e2 : ¬ p < -1/5 := not_lt.2 (by linarith)
        have e3 : ¬ p < 1/5 := not_lt.2 (by linarith)
        have e4 : ¬ p < 3/5 := not_lt.2 g4
        have f3 : ¬ p < (5:ℚ)⁻¹ := by rw [q5]; exact e3
        simp [hhi, g4, g5, e1, e2, e3, e4, f3]

lemma mood_rank_get (p : ℚ) (h1 : -1 ≤ p) :
    mood_rank (get_mood_category p) =
      if p < -3/5 then 0 else if p < -1/5 then 1 else if p < 1/5 then 2
      else if p < 3/5 then 3 else 4 := by
  rw [get_mood_category_eq]
  rcases lt_or_le p (-3/5) with c1 | c1
  · rw [if_pos ⟨h1, c1⟩, if_pos c1]; rfl
  · rw [if_neg (fun hc => absurd hc.2 (not_lt.2 c1)), if_neg (not_lt.2 c1)]
    rcases lt_or_le p (-1/5) with c2 | c2
    · rw [if_pos ⟨c1, c2⟩, if_pos c2]; rfl
    · rw [if_neg (fun hc => absurd hc.2 (not_lt.2 c2)), if_neg (not_lt.2 c2)]
      rcases lt_or_le p (1/5) with c3 | c3
      · rw [if_pos ⟨c2, c3⟩, if_pos c3]; rfl
      · rw [if_neg (fun hc => absurd hc.2 (not_lt.2 c3)), if_neg (not_lt.2 c3)]
        rcases lt_or_le p (3/5) with c4 | c4
        · rw [if_pos ⟨c3, c4⟩, if_pos c4]; rfl
        · rw [if_neg (fun hc => absurd hc.2 (not_lt.2 c4)), if_neg (not_lt.2 c4)]
          rfl


lemma fallback_iff (p : ℚ) (h1 : -1 ≤ p) (h2 : p ≤ 1) :
    (MOOD_CATEGORIES.find? fun c => decide (c.2.1 ≤ p ∧ p < c.2.2)) = none ↔
      p = 1 := by
  rw [List.find?_eq_none]
  constructor
  · intro hall
    have a1 := hall ("very_negative", -1, -3/5) (by simp [MOOD_CATEGORIES])
    have a2 := hall ("negative", -3/5, -1/5) (by simp [MOOD_CATEGORIES])
    have a3 := hall ("neutral", -1/5, 1/5) (by simp [MOOD_CATEGORIES])
    have a4 := hall ("positive", 1/5, 3/5) (by simp [MOOD_CATEGORIES])
    have a5 := hall ("very_positive", 3/5, 1) (by simp [MOOD_CATEGORIES])
    simp only [decide_eq_true_eq] at a1 a2 a3 a4 a5
    push_neg at a1 a2 a3 a4 a5
    have b1 := a1 h1
    have b2 := a2 b1
    have b3 := a3 b2
    have b4 := a4 b3
    have b5 := a5 b4
    linarith
  · rintro rfl
    intro c hc
    fin_cases hc <;> simp <;> norm_num

/-! ## Claim theorems -/

/-- Claim C2: `get_mood_category` returns the label of the first bucket, in the
fixed declaration order of `MOOD_CATEGORIES`, whose half-open interval
`[lower, upper)` contains the polarity, and falls back to `"very_positive"`
when no bucket matches; for a polarity in `[-1, 1]` the fallback is reached
(no bucket matches) exactly when the polarity is `1`, and polarity `3/5`
yields `"very_positive"`. -/
theorem mood_scan_first_match_and_fallback (p : ℚ) :
    get_mood_category p = classify_mood_spec p ∧
    (-1 ≤ p → p ≤ 1 →
      ((MOOD_CATEGORIES.find? fun c => decide (c.2.1 ≤ p ∧ p < c.2.2)) = none ↔
        p = 1)) ∧
    get_mood_category (3/5) = "very_positive" :=
  ⟨classify_mood_spec_eq p, fun h1 h2 => fallback_iff p h1 h2, by
    rw [get_mood_category_eq]; norm_num⟩

theorem mood_scan_first_match_and_fallback_witness :
    get_mood_category 1 = classify_mood_spec 1 ∧
    (MOOD_CATEGORIES.find? fun c => decide (c.2.1 ≤ (1 : ℚ) ∧ (1 : ℚ) < c.2.2)) =
      none ∧
    get_mood_category (3/5) = "very_positive" :=
  ⟨(mood_scan_first_match_and_fallback 1).1,
   ((mood_scan_first_match_and_fallback 1).2.1 (by norm_num) (by norm_num)).mpr
     rfl,
   (mood_scan_first_match_and_fallback 1).2.2⟩

/-- Claim C7: `get_mood_category` is total on `[-1, 1]` (every polarity gets one
of the five labels) and monotone under the label order
very_negative < negative < neutral < positive < very_positive; moreover
polarity `-4/5` yields `"very_negative"`, `0` yields `"neutral"` and `4/5`
yields `"very_positive"`. -/
theorem mood_total_and_monotone (p p1 p2 : ℚ)
    (ha : -1 ≤ p1) (hb : p1 ≤ p2) (hc : p2 ≤ 1) :
    get_mood_category p ∈
      ["very_negative", "negative", "neutral", "positive", "very_positive"] ∧
    mood_rank (get_mood_category p1) ≤ mood_rank (get_mood_category p2) ∧
    get_mood_category (-4/5) = "very_negative" ∧
    get_mood_category 0 = "neutral" ∧
    get_mood_category (4/5) = "very_positive" := by
  refine ⟨?_, ?_, ?_, ?_, ?_⟩
  · rw [get_mood_category_eq]
    split_ifs <;> simp
  · rw [mood_rank_get p1 ha, mood_rank_get p2 (by linarith)]
    split_ifs <;> first | (exfalso; linarith) | norm_num
  · rw [get_mood_category_eq]; norm_num
  · rw [get_mood_category_eq]; norm_num
  · rw [get_mood_category_eq]; norm_num

theorem mood_total_and_monotone_witness :
    get_mood_category (7 : ℚ) ∈
      ["very_negative", "negative", "neutral", "positive", "very_positive"] ∧
    mood_rank (get_mood_category (-1/2)) ≤ mood_rank (get_mood_category (1/2)) ∧
    get_mood_category (-4/5) = "very_negative" ∧
    get_mood_category 0 = "neutral" ∧
    get_mood_category (4/5) = "very_positive" :=
  mood_total_and_monotone 7 (-1/2) (1/2) (by norm_num) (by norm_num) (by norm_num)

/-- Claim C10: for a polarity strictly below `-1` (outside the documented
domain), no declared bucket matches — in particular `very_negative`'s lower
bound `-1` already fails — so the scan of `get_mood_category` falls through
to the `"very_positive"` fallback. -/
theorem mood_below_domain_hits_fallback (p : ℚ) (h : p < -1) :
    get_mood_category p = "very_positive" := by
  rw [get_mood_category_eq]
  split_ifs with h1 h2 h3 h4
  · exact absurd h1.1 (not_le.2 (by linarith))
  · exact absurd h2.1 (not_le.2 (by linarith))
  · exact absurd h3.1 (not_le.2 (by linarith))
  · exact absurd h4.1 (not_le.2 (by linarith))
  · rfl

theorem mood_below_domain_hits_fallback_witness :
    get_mood_category (-2) = "very_positive" :=
  mood_below_domain_hits_fallback (-2) (by norm_num)

/-- Claim C3: on `[0, 100]` the motivation category is `"high"` iff the score is
`≥ 70`, `"moderate"` iff it is in `[40, 70)`, `"low"` iff it is `< 40`, and
the three categories cover every score, so they partition `[0, 100]` with no
gaps and no overlaps. -/
theorem categorize_motivation_partition (s : ℚ) (h0 : 0 ≤ s) (h100 : s ≤ 100) :
    (categorize_motivation s = "high" ↔ 70 ≤ s) ∧
    (categorize_motivation s = "moderate" ↔ 40 ≤ s ∧ s < 70) ∧
    (categorize_motivation s = "low" ↔ s < 40) ∧
    (categorize_motivation s = "high" ∨ categorize_motivation s = "moderate" ∨
      categorize_motivation s = "low") := by
  unfold categorize_motivation
  split_ifs with h1 h2
  · exact ⟨⟨fun _ => h1, fun _ => rfl⟩,
      ⟨fun hcon => absurd hcon (by decide),
       fun hcon => absurd h1 (not_le.2 hcon.2)⟩,
      ⟨fun hcon => absurd hcon (by decide),
       fun hcon => absurd h1 (not_le.2 (by linarith))⟩,
      Or.inl rfl⟩
  · exact ⟨⟨fun hcon => absurd hcon (by decide), fun h70 => absurd h70 h1⟩,
      ⟨fun _ => ⟨h2, not_le.1 h1⟩, fun _ => rfl⟩,
      ⟨fun hcon => absurd hcon (by decide),
       fun hcon => absurd h2 (not_le.2 hcon)⟩,
      Or.inr (Or.inl rfl)⟩
  · exact ⟨⟨fun hcon => absurd hcon (by decide), fun h70 => absurd h70 h1⟩,
      ⟨fun hcon => absurd hcon (by decide), fun hcon => absurd hcon.1 h2⟩,
      ⟨fun _ => not_le.1 h2, fun _ => rfl⟩,
      Or.inr (Or.inr rfl)⟩

theorem categorize_motivation_partition_witness :
    (categorize_motivation 85 = "high" ↔ 70 ≤ (85 : ℚ)) ∧
    (categorize_motivation 85 = "moderate" ↔ 40 ≤ (85 : ℚ) ∧ (85 : ℚ) < 70) ∧
    (categorize_motivation 85 = "low" ↔ (85 : ℚ) < 40) ∧
    (categorize_motivation 85 = "high" ∨ categorize_motivation 85 = "moderate" ∨
      categorize_motivation 85 = "low") :=
  categorize_motivation_partition 85 (by norm_num) (by norm_num)

/-- Claim C6: whatever values the external classifier supplies for the label,
the confidence and the embedding similarities, and for any polarity in
`[-1, 1]`, the value returned by `calculate_motivation_score` lies in
`[0, 100]` (the final `np.clip` guarantees it). -/
theorem motivation_score_in_range {α : Type} (similarity : α → α → ℚ)
    (get_embedding : String → α) (tf_score : ℚ) (tf_label : String)
    (polarity : ℚ) (h1 : -1 ≤ polarity) (h2 : polarity ≤ 1) :
    0 ≤ calculate_motivation_score similarity get_embedding tf_score tf_label
          polarity ∧
    calculate_motivation_score similarity get_embedding tf_score tf_label
          polarity ≤ 100 := by
  unfold calculate_motivation_score
  exact ⟨le_min (le_max_right _ _) (by norm_num), min_le_right _ _⟩

theorem motivation_score_in_range_witness :
    0 ≤ calculate_motivation_score (fun _ _ : ℚ => (0 : ℚ)) (fun _ => (0 : ℚ))
          (9/10) "joy" (1/2) ∧
    calculate_motivation_score (fun _ _ : ℚ => (0 : ℚ)) (fun _ => (0 : ℚ))
          (9/10) "joy" (1/2) ≤ 100 :=
  motivation_score_in_range (fun _ _ => 0) (fun _ => 0) (9/10) "joy" (1/2)
    (by norm_num) (by norm_num)

/-- Claim C8: under the external-classifier-weighted policy,
`calculate_motivation_score` takes `highest` to be the maximum of the
confidence `tf_score` and the similarities of the label's embedding to the
embeddings of the five mood category names, forms
`combined = 0.5·polarity + 0.5·highest·tf_score`, and returns
`(combined + 1)·50` clamped to `[0, 100]`. -/
theorem classifier_policy_formula {α : Type} (similarity : α → α → ℚ)
    (get_embedding : String → α) (tf_score : ℚ) (tf_label : String)
    (polarity : ℚ) :
    calculate_motivation_score similarity get_embedding tf_score tf_label
        polarity =
      min (max ((1/2 * polarity + 1/2 *
        (max (max (max (max (max tf_score
          (similarity (get_embedding tf_label) (get_embedding "very_negative")))
          (similarity (get_embedding tf_label) (get_embedding "negative")))
          (similarity (get_embedding tf_label) (get_embedding "neutral")))
          (similarity (get_embedding tf_label) (get_embedding "positive")))
          (similarity (get_embedding tf_label) (get_embedding "very_positive"))) *
          tf_score + 1) * 50) 0) 100 := by
  unfold calculate_motivation_score
  simp only [MOOD_CATEGORIES, List.foldl, ite_gt_max]

/-- Claim C1 (spec-modelled: the keyword-weighted policy's module is not under
`src/`): `keyword_motivation_score` computes
`keyword_score = (high_count − low_count)/(high_count + low_count)` when the
denominator is nonzero and `0` otherwise, combines it as
`0.6·polarity + 0.4·keyword_score`, maps through `(combined + 1)·50` clamped
to `[0, 100]`; with 3 high matches, 0 low matches and polarity `1/2` the
score is exactly `85` and its category is `"high"`. -/
theorem keyword_policy_formula (high_count low_count : ℕ) (polarity : ℚ) :
    (high_count + low_count ≠ 0 →
      keyword_motivation_score high_count low_count polarity =
        min (max ((3/5 * polarity +
          2/5 * (((high_count : ℚ) - (low_count : ℚ)) /
            ((high_count : ℚ) + (low_count : ℚ))) + 1) * 50) 0) 100) ∧
    (high_count + low_count = 0 →
      keyword_motivation_score high_count low_count polarity =
        min (max ((3/5 * polarity + 2/5 * 0 + 1) * 50) 0) 100) ∧
    keyword_motivation_score 3 0 (1/2) = 85 ∧
    categorize_motivation (keyword_motivation_score 3 0 (1/2)) = "high" := by
  refine ⟨?_, ?_, ?_, ?_⟩
  · intro h
    unfold keyword_motivation_score
    rw [if_pos h]
  · intro h
    unfold keyword_motivation_score
    rw [if_neg (not_not_intro h)]
  · norm_num [keyword_motivation_score, min_def, max_def]
  · norm_num [keyword_motivation_score, categorize_motivation, min_def, max_def]

theorem keyword_policy_formula_witness :
    keyword_motivation_score 3 0 (1/2) =
      min (max ((3/5 * (1/2 : ℚ) +
        2/5 * ((((3 : ℕ) : ℚ) - ((0 : ℕ) : ℚ)) /
          (((3 : ℕ) : ℚ) + ((0 : ℕ) : ℚ))) + 1) * 50) 0) 100 ∧
    keyword_motivation_score 3 0 (1/2) = 85 :=
  ⟨(keyword_policy_formula 3 0 (1/2)).1 (by norm_num),
   (keyword_policy_formula 3 0 (1/2)).2.2.1⟩

/-- Claim C4: on empty or whitespace-only text, `analyze` returns (it is a total
function, so no exception escapes) the sentinel result: error set to
`"Empty text provided"`, mood `"neutral"`, motivation level exactly `50`,
and a zero-valued sentiment reading. -/
theorem analyze_empty_input_sentinel (sf : String → Except String (ℚ × ℚ))
    (mf : String → ℚ → Except String ℚ) (text : String)
    (h : text = "" ∨ strip_empty text = true) :
    (analyze sf mf text).error = some "Empty text provided" ∧
    (analyze sf mf text).mood = "neutral" ∧
    (analyze sf mf text).motivation_level = 50 ∧
    (analyze sf mf text).polarity = 0 ∧
    (analyze sf mf text).subjectivity = 0 := by
  have he : analyze sf mf text = sentinel "Empty text provided" := by
    unfold analyze
    rw [if_pos h]
  rw [he]
  exact ⟨rfl, rfl, rfl, rfl, rfl⟩

theorem analyze_empty_input_sentinel_witness :
    (analyze (fun _ => Except.ok (0, 0)) (fun _ _ => Except.ok 50) " ").error =
      some "Empty text provided" ∧
    (analyze (fun _ => Except.ok (0, 0)) (fun _ _ => Except.ok 50) " ").mood =
      "neutral" ∧
    (analyze (fun _ => Except.ok (0, 0)) (fun _ _ =>
      Except.ok 50) " ").motivation_level = 50 ∧
    (analyze (fun _ => Except.ok (0, 0)) (fun _ _ =>
      Except.ok 50) " ").polarity = 0 ∧
    (analyze (fun _ => Except.ok (0, 0)) (fun _ _ =>
      Except.ok 50) " ").subjectivity = 0 :=
  analyze_empty_input_sentinel _ _ " " (Or.inr (by decide))

/-- Claim C5: for non-empty (after stripping) text, an exception raised by any
scoring step inside `analyze` — the sentiment engine or the motivation-score
computation — is caught and converted to the sentinel result carrying the
exception's message in the error field; `analyze` is a total function, so it
never propagates an exception. -/
theorem analyze_swallows_exceptions (sf : String → Except String (ℚ × ℚ))
    (mf : String → ℚ → Except String ℚ) (text msg : String)
    (hne : ¬ (text = "" ∨ strip_empty text = true)) :
    (sf text = Except.error msg → analyze sf mf text = sentinel msg) ∧
    (∀ polarity subjectivity : ℚ,
      sf text = Except.ok (polarity, subjectivity) →
      mf text polarity = Except.error msg →
      analyze sf mf text = sentinel msg) ∧
    (sentinel msg).error = some msg ∧
    (sentinel msg).mood = "neutral" ∧
    (sentinel msg).motivation_level = 50 ∧
    (sentinel msg).polarity = 0 ∧
    (sentinel msg).subjectivity = 0 := by
  refine ⟨?_, ?_, rfl, rfl, rfl, rfl, rfl⟩
  · intro hsf
    unfold analyze
    rw [if_neg hne, hsf]
  · intro pol subj hsf hmf
    unfold analyze
    rw [if_neg hne, hsf]
    simp only [hmf]

theorem analyze_swallows_exceptions_witness :
    analyze (fun _ => Except.error "boom") (fun _ _ => Except.ok 50) "x" =
      sentinel "boom" ∧
    (sentinel "boom").error = some "boom" :=
  ⟨(analyze_swallows_exceptions (fun _ => Except.error "boom")
      (fun _ _ => Except.ok 50) "x" "boom" (by decide)).1 rfl,
   (analyze_swallows_exceptions (fun _ => Except.error "boom")
      (fun _ _ => Except.ok 50) "x" "boom" (by decide)).2.2.1⟩

/-- Claim C9 is false on the code: the empty-input sentinel and the exception
sentinel of `analyze` omit the `motivation_category`, `text_length` and
`word_count` keys that the success result and the web layer's declared
`AnalysisResponse` schema require; evaluating `analyze` on whitespace-only
input and on a raising sentiment oracle exhibits the missing keys. -/
theorem analyze_sentinel_omits_fields :
    (analyze (fun _ => Except.ok (0, 0)) (fun _ _ =>
      Except.ok 50) "   ").motivation_category = none ∧
    (analyze (fun _ => Except.ok (0, 0)) (fun _ _ =>
      Except.ok 50) "   ").text_length = none ∧
    (analyze (fun _ => Except.ok (0, 0)) (fun _ _ =>
      Except.ok 50) "   ").word_count = none ∧
    (analyze (fun _ => Except.error "boom") (fun _ _ =>
      Except.ok 50) "x").motivation_category = none ∧
    (analyze (fun _ => Except.error "boom") (fun _ _ =>
      Except.ok 50) "x").text_length = none ∧
    (analyze (fun _ => Except.error "boom") (fun _ _ =>
      Except.ok 50) "x").word_count = none := by
  refine ⟨?_, ?_, ?_, ?_, ?_, ?_⟩ <;> decide
